import Mathlib

/-
  Verification development for the tfgames-site crawler (src/crawl.py).

  The Python source is shallowly embedded: the page parser
  (parse_game_page), the relational loader (pgame_to_db_game) and the
  orchestrating run (crawl / main) become Lean functions over explicit
  state; Python exceptions become an Except monad with a PyErr error
  type; the network and the BeautifulSoup layer are represented by the
  structured values the source extracts from them (a detail page is the
  family of texts/links/containers the source reads off the soup).
-/

-- ===================== Python-ish string helpers =====================

/-- Python `needle in hay` substring test, on char lists. -/
def listHasSub : List Char → List Char → Bool
  | needle, [] => needle.isEmpty
  | needle, c :: t => needle.isPrefixOf (c :: t) || listHasSub needle t

/-- Python `needle in hay` substring test on strings. -/
def strContains (hay needle : String) : Bool :=
  listHasSub needle.data hay.data

/-- Python `s.lstrip(chars)`: drop leading characters belonging to the set. -/
def lstripSet (s : String) (set : String) : String :=
  ⟨s.data.dropWhile (fun c => set.data.contains c)⟩

/-- Python whitespace for str.strip(). -/
def isPySpace (c : Char) : Bool :=
  c == ' ' || c == '\t' || c == '\n' || c == '\r' || c.toNat == 11 || c.toNat == 12

/-- Python `s.strip()`. -/
def pyStrip (s : String) : String :=
  ⟨((s.data.dropWhile isPySpace).reverse.dropWhile isPySpace).reverse⟩

/-- ASCII lowercasing of one character. -/
def lowerCh (c : Char) : Char :=
  if 65 ≤ c.toNat && c.toNat ≤ 90 then Char.ofNat (c.toNat + 32) else c

/-- Python `s.lower()` (ASCII). -/
def pyLower (s : String) : String :=
  ⟨s.data.map lowerCh⟩

/-- Fuel-driven scanner behind `pySplit` (fuel bounds the scan so the
    recursion is structural and kernel-reducible). -/
def splitFuel (sep : List Char) : Nat → List Char → List Char → List (List Char)
  | 0, cs, acc => [acc.reverse ++ cs]
  | Nat.succ f, cs, acc =>
    match cs with
    | [] => [acc.reverse]
    | c :: rest =>
      if sep.isPrefixOf (c :: rest) then
        acc.reverse :: splitFuel sep f ((c :: rest).drop sep.length) []
      else splitFuel sep f rest (c :: acc)

/-- Python `s.split(sep)` for a non-empty separator. -/
def pySplit (s sep : String) : List String :=
  (splitFuel sep.data (s.data.length + 1) s.data []).map (fun l => ⟨l⟩)

/-- Fuel-driven scanner behind `pyReplace`. -/
def replFuel (old new : List Char) : Nat → List Char → List Char
  | 0, cs => cs
  | Nat.succ f, cs =>
    match cs with
    | [] => []
    | c :: rest =>
      if old.isPrefixOf (c :: rest) then
        new ++ replFuel old new f ((c :: rest).drop old.length)
      else c :: replFuel old new f rest

/-- Python `s.replace(old, new)` for a non-empty pattern. -/
def pyReplace (s old new : String) : String :=
  ⟨replFuel old.data new.data (s.data.length + 1) s.data⟩

def joinWithList (sep : List Char) : List (List Char) → List Char
  | [] => []
  | [x] => x
  | x :: y :: rest => x ++ sep ++ joinWithList sep (y :: rest)

/-- Python `"\n".join(lines)`. -/
def joinNL (ls : List String) : String :=
  ⟨joinWithList ['\n'] (ls.map (fun l => l.data))⟩

/-- Value of a digit list. -/
def digitsVal (ds : List Char) : Nat :=
  ds.foldl (fun a c => a * 10 + (c.toNat - 48)) 0

/-- Python `int(s)`: strip whitespace, optional sign, decimal digits;
    `none` models the ValueError raise. -/
def pyInt (s : String) : Option Int :=
  let t := pyStrip s
  let (sgn, ds) : Int × List Char :=
    match t.data with
    | '-' :: rest => (-1, rest)
    | '+' :: rest => (1, rest)
    | l => (1, l)
  if ds.isEmpty then none
  else if ds.all Char.isDigit then some (sgn * Int.ofNat (digitsVal ds))
  else none

-- ===================== Dates (arrow.get models) =====================

structure DateTime where
  year : Nat
  month : Nat
  day : Nat
  hour : Nat
  minute : Nat
  second : Nat
deriving DecidableEq, Repr

def eatLit (lit : List Char) (cs : List Char) : Option (List Char) :=
  if lit.isPrefixOf cs then some (cs.drop lit.length) else none

def eatDigits2 : List Char → Option (Nat × List Char)
  | a :: b :: rest =>
    if a.isDigit && b.isDigit then some ((a.toNat - 48) * 10 + (b.toNat - 48), rest)
    else none
  | _ => none

def eatDigits4 : List Char → Option (Nat × List Char)
  | a :: b :: c :: d :: rest =>
    if a.isDigit && b.isDigit && c.isDigit && d.isDigit then
      some (digitsVal [a, b, c, d], rest)
    else none
  | _ => none

def monthAbbrevs : List String :=
  ["Jan", "Feb", "Mar", "Apr", "May", "Jun", "Jul", "Aug", "Sep", "Oct", "Nov", "Dec"]

def eatMonth (cs : List Char) : Option (Nat × List Char) :=
  match cs with
  | a :: b :: c :: rest =>
    match monthAbbrevs.indexOf? (String.mk [a, b, c]) with
    | some i => some (i + 1, rest)
    | none => none
  | _ => none

def validYMD (y m d : Nat) : Bool :=
  1 ≤ m && m ≤ 12 && 1 ≤ d && d ≤ 31 && 1 ≤ y

/-- `arrow.get(s, "|DD MMM YYYY|, HH:mm")`; `none` models the parser raise. -/
def parseBarFmt (s : String) : Option DateTime := do
  let cs := s.data
  let cs ← eatLit ['|'] cs
  let (d, cs) ← eatDigits2 cs
  let cs ← eatLit [' '] cs
  let (m, cs) ← eatMonth cs
  let cs ← eatLit [' '] cs
  let (y, cs) ← eatDigits4 cs
  let cs ← eatLit ['|', ',', ' '] cs
  let (h, cs) ← eatDigits2 cs
  let cs ← eatLit [':'] cs
  let (mi, cs) ← eatDigits2 cs
  if cs.isEmpty && validYMD y m d && h < 24 && mi < 60 then
    some ⟨y, m, d, h, mi, 0⟩
  else none

/-- `arrow.get(s, "MM/DD/YYYY")`. -/
def parseUSDate (s : String) : Option DateTime := do
  let cs := s.data
  let (m, cs) ← eatDigits2 cs
  let cs ← eatLit ['/'] cs
  let (d, cs) ← eatDigits2 cs
  let cs ← eatLit ['/'] cs
  let (y, cs) ← eatDigits4 cs
  if cs.isEmpty && validYMD y m d then some ⟨y, m, d, 0, 0, 0⟩ else none

/-- `arrow.get(s, "YYYY-MM-DD HH:mm:ss")`. -/
def parseISODateTime (s : String) : Option DateTime := do
  let cs := s.data
  let (y, cs) ← eatDigits4 cs
  let cs ← eatLit ['-'] cs
  let (m, cs) ← eatDigits2 cs
  let cs ← eatLit ['-'] cs
  let (d, cs) ← eatDigits2 cs
  let cs ← eatLit [' '] cs
  let (h, cs) ← eatDigits2 cs
  let cs ← eatLit [':'] cs
  let (mi, cs) ← eatDigits2 cs
  let cs ← eatLit [':'] cs
  let (sec, cs) ← eatDigits2 cs
  if cs.isEmpty && validYMD y m d && h < 24 && mi < 60 && sec < 60 then
    some ⟨y, m, d, h, mi, sec⟩
  else none

/-- `arrow.get(s, "MM/DD/YYYY HH:mm:ss")`. -/
def parseUSDateTime (s : String) : Option DateTime := do
  let cs := s.data
  let (m, cs) ← eatDigits2 cs
  let cs ← eatLit ['/'] cs
  let (d, cs) ← eatDigits2 cs
  let cs ← eatLit ['/'] cs
  let (y, cs) ← eatDigits4 cs
  let cs ← eatLit [' '] cs
  let (h, cs) ← eatDigits2 cs
  let cs ← eatLit [':'] cs
  let (mi, cs) ← eatDigits2 cs
  let cs ← eatLit [':'] cs
  let (sec, cs) ← eatDigits2 cs
  if cs.isEmpty && validYMD y m d && h < 24 && mi < 60 && sec < 60 then
    some ⟨y, m, d, h, mi, sec⟩
  else none

-- ===================== Python exceptions =====================

/-- The uncaught Python exceptions the crawler can raise. -/
inductive PyErr where
  | nameError        -- unbound local variable
  | typeError
  | valueError       -- int() failure / pony required-attribute None
  | indexError
  | attributeError
  | validationError  -- pydantic model construction failure
  | netError         -- requests exception / unreachable origin
  | parserError      -- arrow parse failure outside a try block
deriving DecidableEq, Repr

instance {ε α : Type} [DecidableEq ε] [DecidableEq α] : DecidableEq (Except ε α) :=
  fun a b =>
    match a, b with
    | .ok x, .ok y =>
      if h : x = y then isTrue (by rw [h])
      else isFalse (by intro hh; cases hh; exact h rfl)
    | .error x, .error y =>
      if h : x = y then isTrue (by rw [h])
      else isFalse (by intro hh; cases hh; exact h rfl)
    | .ok _, .error _ => isFalse (by intro h; cases h)
    | .error _, .ok _ => isFalse (by intro h; cases h)

-- ===================== Intermediate records (pydantic models) =====================

/-- pydantic `PReview`. -/
structure PReview where
  id : Int
  author : String
  version : String
  date : DateTime
  text : String
deriving DecidableEq, Repr

/-- One entry of a version's download list (the dict built per dl div).
    `delete` holds the dead-link anchor when present, `note` the notes
    image title when present. -/
structure PDownload where
  delete : Option String
  link : String
  note : Option String
  report : String
deriving DecidableEq, Repr

/-- The three theme dicts under `data["themes"]`. -/
structure Themes where
  adult : List (String × Int) := []
  transformation : List (String × Int) := []
  multimedia : List (String × Int) := []
deriving DecidableEq, Repr

/-- pydantic `PGame`: the parser's intermediate game record.  Fields that
    pydantic declares without Optional are required: constructing the model
    without them raises a ValidationError.  `reviews` and `versions` are
    always initialised by the parser, so they are carried as plain lists;
    dicts keep insertion order and are carried as association lists. -/
structure PGame where
  id : Int
  title : String
  authors : List (String × Int)
  game_engine : String
  content_rating : String
  language : String
  release_date : DateTime
  last_update : DateTime
  version : String
  development_stage : String
  likes : Int
  reviews : List PReview
  contest : Option String
  orig_pc_gender : Option String
  themes : Option Themes
  thread : Option String
  play_online : Option String
  versions : List (String × List PDownload)
  synopsis : Option (String × String)
  plot : Option (String × String)
  characters : Option (String × String)
  walkthrough : Option (String × String)
  changelog : Option (String × String)
deriving DecidableEq, Repr

-- ===================== Page model (what the soup queries return) =====================

/-- The right-hand cell of a labelled info row: its text content and its
    anchor elements as (text, href) pairs in document order. -/
structure InfoRight where
  text : String
  links : List (String × String)
deriving DecidableEq, Repr

/-- A child of the downloads element: a version header (`center`), a
    download entry (`div`, assumed to carry the dltext link and the
    report link the source reads unconditionally), or other nodes. -/
inductive DlContainer where
  | center (text : String)
  | div (deadlink : Option String) (link : String) (note : Option String) (reportHref : String)
  | other
deriving DecidableEq, Repr

/-- A `tabs-i` pane together with the text of the anchor pointing at it
    (`none` anchor models the missing `<a>` the source dereferences). -/
structure TabEntry where
  anchorTitle : Option String
  text : String
  html : String
deriving DecidableEq, Repr

/-- A game detail page, as the family of values the source reads off the
    soup: title text, the author container's anchors and text, the
    labelled info rows, the downloads children, the tab panes and the
    play-online form action. -/
structure DetailPage where
  title : String
  authorLinks : List (String × String)
  authorText : String
  infoBoxes : List (String × InfoRight)
  downloads : List DlContainer
  tabs : List (Option TabEntry)
  playOnline : Option String
deriving DecidableEq, Repr

-- ===================== Relational store =====================

structure GameRow where
  id : Int
  title : String
  authorIds : List Int
  version : String
  engine : Int
  content_rating : Int
  language : String
  release_date : DateTime
  last_update : DateTime
  development_stage : String
  likes : Int
  contest : String
  orig_pc_gender : Option String   -- passed through; pony rejects None, so written rows hold some value
  adult_themes : List Int
  tf_themes : List Int
  mm_themes : List Int
  thread : String
  play_online : String
  synopsis_text : String
  synopsis_html : String
  plot_text : String
  plot_html : String
  characters_text : String
  characters_html : String
  walkthrough_text : String
  walkthrough_html : String
  changelog_text : String
  changelog_html : String
deriving DecidableEq, Repr

structure VersionRow where
  id : Int
  version : String
  game : Int
deriving DecidableEq, Repr

structure DownloadRow where
  id : Int
  link : String
  report : String
  note : String
  delete : String
  game_version : Int
deriving DecidableEq, Repr

structure ReviewRow where
  id : Int
  author : String
  text : String
  date : DateTime
  version : String
  game : Int
deriving DecidableEq, Repr

/-- The relational store: the six taxonomy tables and the game graph. -/
structure Store where
  engines : List (Int × String) := []
  ratings : List (Int × String) := []
  adultThemes : List (Int × String) := []
  tfThemes : List (Int × String) := []
  mmThemes : List (Int × String) := []
  authors : List (Int × String) := []
  games : List GameRow := []
  versions : List VersionRow := []
  downloads : List DownloadRow := []
  reviews : List ReviewRow := []
deriving DecidableEq, Repr

def Store.empty : Store := {}

-- ===================== Page parser (parse_game_page) =====================

/-- Module-level `config.BASE_URL` default. -/
def BASE_URL : String := "https://tfgames.site"

/-- Model of `urljoin(config.BASE_URL, href)` for the href shapes the site
    produces: absolute hrefs pass through, relative ones are joined onto
    the site root. -/
def modelUrljoin (href : String) : String :=
  if ("http".data).isPrefixOf href.data then href
  else if ("/".data).isPrefixOf href.data then BASE_URL ++ href
  else BASE_URL ++ "/" ++ href

/-- `.lower().replace(" ", "_")` normalisation used throughout the source. -/
def normName (s : String) : String :=
  pyReplace (pyLower s) " " "_"

/-- `container.text.strip().lstrip("by").strip().lower().replace(" ", "_")`
    for the unlinked-author fallback. -/
def normalizeBare (s : String) : String :=
  normName (pyStrip (lstripSet (pyStrip s) "by"))

/-- Python dict assignment `d[k] = v`: overwrite in place or append. -/
def upsert : List (String × Int) → String → Int → List (String × Int)
  | [], k, v => [(k, v)]
  | (k0, v0) :: rest, k, v =>
    if k0 = k then (k0, v) :: rest else (k0, v0) :: upsert rest k v

/-- `int(link.get("href").split("u=")[1])` wrapped in try/except. -/
def linkAuthorId (href : String) : Option Int :=
  (pySplit href "u=").get? 1 >>= pyInt

/-- The linked-author loop: each anchor yields `name -> id` unless the
    href split or int() raises, in which case the anchor is skipped. -/
def collectLinkAuthorsAux (acc : List (String × Int)) : List (String × String) → List (String × Int)
  | [] => acc
  | (txt, href) :: rest =>
    match linkAuthorId href with
    | none => collectLinkAuthorsAux acc rest
    | some v => collectLinkAuthorsAux (upsert acc (normName txt) v) rest

def collectLinkAuthors (links : List (String × String)) : List (String × Int) :=
  collectLinkAuthorsAux [] links

/-- `GameAuthor.get(name=...)` against the author taxonomy table. -/
def lookupAuthorId (authors : List (Int × String)) (name : String) : Option Int :=
  (authors.find? (fun p => p.2 == name)).map (fun p => p.1)

/-- `GameEngine.get(name=...)` / `ContentRating.get(name=...)` style lookup. -/
def lookupByName (table : List (Int × String)) (name : String) : Option Int :=
  (table.find? (fun p => p.2 == name)).map (fun p => p.1)

/-- The author section of `parse_game_page`: prefer links; on a bare
    author name, resolve against the GameAuthor table in the store —
    `none` is the bare `return` that drops the game (the AttributeError
    on `.id` of a failed get, swallowed by the bare except). -/
def parseAuthors (store : Store) (page : DetailPage) : Option (List (String × Int)) :=
  match page.authorLinks with
  | [] =>
    match lookupAuthorId store.authors (normalizeBare page.authorText) with
    | some i => some [(normalizeBare page.authorText, i)]
    | none => none
  | l :: ls => some (collectLinkAuthors (l :: ls))

/-- The mutable `data` defaultdict as the parser builds it. -/
structure PState where
  authors : List (String × Int) := []
  game_engine : Option String := none
  content_rating : Option String := none
  language : Option String := none
  release_date : Option DateTime := none
  last_update : Option DateTime := none
  version : Option String := none
  development_stage : Option String := none
  likes : Int := 0
  contest : Option String := none
  orig_pc_gender : Option String := none
  themes : Option Themes := none
  thread : Option String := none
  play_online : Option String := none
  versionsMap : List (String × List PDownload) := []
  synopsis : Option (String × String) := none
  plot : Option (String × String) := none
  characters : Option (String × String) := none
  walkthrough : Option (String × String) := none
  changelog : Option (String × String) := none
deriving DecidableEq, Repr

/-- `int(link.get("href").split(pfx)[1])` with no try around it. -/
def parseThemeId (pfx : String) (href : String) : Option Int :=
  (pySplit href pfx).get? 1 >>= pyInt

def addAdultLinks : Themes → List (String × String) → Except PyErr Themes
  | t, [] => .ok t
  | t, (txt, href) :: rest =>
    match parseThemeId "adult=" href with
    | none => .error .valueError
    | some n => addAdultLinks { t with adult := upsert t.adult txt n } rest

def addTfLinks : Themes → List (String × String) → Except PyErr Themes
  | t, [] => .ok t
  | t, (txt, href) :: rest =>
    match parseThemeId "transformation=" href with
    | none => .error .valueError
    | some n => addTfLinks { t with transformation := upsert t.transformation txt n } rest

def addMmLinks : Themes → List (String × String) → Except PyErr Themes
  | t, [] => .ok t
  | t, (txt, href) :: rest =>
    match parseThemeId "multimedia=" href with
    | none => .error .valueError
    | some n => addMmLinks { t with multimedia := upsert t.multimedia txt n } rest

def defaultThemes : Themes := {}

/-- One labelled info row, dispatched on the left-hand label exactly as
    the source's if/elif chain does.  The two date formats are each tried
    under their own try/except (failure leaves the field as it was); the
    Likes int() and the theme href splits have no try and raise. -/
def procInfoBox (st : PState) (box : String × InfoRight) : Except PyErr PState :=
  let left := box.1
  let right := box.2
  if left = "Engine" then .ok { st with game_engine := some (normName right.text) }
  else if left = "Rating" then .ok { st with content_rating := some (normName right.text) }
  else if left = "Language" then .ok { st with language := some right.text }
  else if left = "Release Date" then
    let st1 := match parseBarFmt right.text with
      | some d => { st with release_date := some d }
      | none => st
    let st2 := match parseUSDate right.text with
      | some d => { st1 with release_date := some d }
      | none => st1
    .ok st2
  else if left = "Last Update" then
    let st1 := match parseBarFmt right.text with
      | some d => { st with last_update := some d }
      | none => st
    let st2 := match parseUSDate right.text with
      | some d => { st1 with last_update := some d }
      | none => st1
    .ok st2
  else if left = "Version" then .ok { st with version := some right.text }
  else if left = "Development" then .ok { st with development_stage := some right.text }
  else if left = "Likes" then
    match pyInt right.text with
    | some n => .ok { st with likes := n }
    | none => .error .valueError
  else if left = "Contest" then
    .ok { st with contest := if right.text = "None" then none else some right.text }
  else if left = "Orig PC Gender" then .ok { st with orig_pc_gender := some right.text }
  else if left = "Adult Themes" then
    match right.links with
    | [] => .ok st
    | l :: ls => do
      let t ← addAdultLinks (st.themes.getD defaultThemes) (l :: ls)
      .ok { st with themes := some t }
  else if left = "TF Themes" then
    match right.links with
    | [] => .ok st
    | l :: ls => do
      let t ← addTfLinks (st.themes.getD defaultThemes) (l :: ls)
      .ok { st with themes := some t }
  else if left = "Multimedia" then
    match right.links with
    | [] => .ok st
    | l :: ls => do
      let t ← addMmLinks (st.themes.getD defaultThemes) (l :: ls)
      .ok { st with themes := some t }
  else if left = "Discussion/Help" then
    match right.links.head? with
    | some l => .ok { st with thread := some l.2 }
    | none => .error .attributeError  -- right.find("a") is None, .get raises
  else .ok st

def procInfoBoxes : PState → List (String × InfoRight) → Except PyErr PState
  | st, [] => .ok st
  | st, b :: rest =>
    match procInfoBox st b with
    | .error e => .error e
    | .ok st1 => procInfoBoxes st1 rest

/-- `data["versions"][key].append(link)` on a defaultdict(list). -/
def appendUnder : List (String × List PDownload) → String → PDownload → List (String × List PDownload)
  | [], k, d => [(k, [d])]
  | (k0, ds) :: rest, k, d =>
    if k0 = k then (k0, ds ++ [d]) :: rest else (k0, ds) :: appendUnder rest k d

/-- The downloads loop.  The local `version` variable (second argument)
    starts unbound (`none`); a `center` child rebinds it; a `div` child
    reads it — unbound means the source raises NameError; bound-but-empty
    falls back to `data["version"]`, which itself raises (the defaultdict
    yields an unhashable dict) when no top-level Version row was seen. -/
def procDownloads : PState → Option String → List DlContainer → Except PyErr PState
  | st, _, [] => .ok st
  | st, _, (.center t) :: rest =>
    procDownloads st (some (pyStrip (lstripSet t "Version:"))) rest
  | st, vh, (.div dl lk nt rp) :: rest =>
    match vh with
    | none => .error .nameError
    | some v =>
      if v = "" then
        match st.version with
        | some tv =>
          procDownloads
            { st with versionsMap := appendUnder st.versionsMap tv ⟨dl, lk, nt, modelUrljoin rp⟩ }
            (some v) rest
        | none => .error .typeError
      else
        procDownloads
          { st with versionsMap := appendUnder st.versionsMap v ⟨dl, lk, nt, modelUrljoin rp⟩ }
          (some v) rest
  | st, vh, .other :: rest => procDownloads st vh rest

/-- The tabs loop (`tabs-1` .. `tabs-5`): a present pane whose anchor is
    missing raises; otherwise the pane is stored under the lowercased
    anchor title when it names one of the five content sections (other
    titles land in dict keys that pydantic then ignores). -/
def procTabs : PState → List (Option TabEntry) → Except PyErr PState
  | st, [] => .ok st
  | st, none :: rest => procTabs st rest
  | st, some t :: rest =>
    match t.anchorTitle with
    | none => .error .attributeError
    | some title =>
      let key := pyLower title
      let st1 :=
        if key = "synopsis" then { st with synopsis := some (t.text, t.html) }
        else if key = "plot" then { st with plot := some (t.text, t.html) }
        else if key = "characters" then { st with characters := some (t.text, t.html) }
        else if key = "walkthrough" then { st with walkthrough := some (t.text, t.html) }
        else if key = "changelog" then { st with changelog := some (t.text, t.html) }
        else st
      procTabs st1 rest

-- ----- reviews -----

/-- `[line for line in review.text.split("\n") if line.strip()]`. -/
def reviewLines (b : String) : List String :=
  (pySplit b "\n").filter (fun l => !(pyStrip l == ""))

/-- `re.match(r"Version reviewed: (.+) on (.*)", line)`: the line must
    start with the literal, the greedy `(.+)` backtracks to the last
    " on " that leaves at least one character for the version. -/
def matchVersionReviewed (line : String) : Option (String × String) :=
  let pfx := "Version reviewed: ".data
  if pfx.isPrefixOf line.data then
    let cs := line.data.drop pfx.length
    let idxs := (List.range cs.length).filter
      (fun i => decide (1 ≤ i) && (" on ".data).isPrefixOf (cs.drop i))
    match idxs.getLast? with
    | some i => some (⟨cs.take i⟩, ⟨cs.drop (i + 4)⟩)
    | none => none
  else none

/-- One block of the reviews loop: the two header checks `continue`
    (skip); an empty block or a marker-only block raises IndexError; a
    block passing both checks parses its date (ISO inside try, US format
    outside — its failure raises) and is discarded if the body is empty. -/
def processReviewBlock (i : Nat) (b : String) : Except PyErr (Option PReview) :=
  match reviewLines b with
  | [] => .error .indexError
  | l0 :: rest =>
    if strContains l0 "Review by" then
      match rest with
      | [] => .error .indexError
      | l1 :: rest2 =>
        match matchVersionReviewed l1 with
        | none => .ok none
        | some (ver, dateStr) =>
          let d? := match parseISODateTime dateStr with
            | some d => some d
            | none => parseUSDateTime dateStr
          match d? with
          | none => .error .parserError
          | some d =>
            let text := joinNL rest2
            if text = "" then .ok none
            else .ok (some ⟨Int.ofNat i, pyStrip (lstripSet l0 "Review by"), ver, d, text⟩)
    else .ok none

def parseReviewsAux : Nat → List String → Except PyErr (List PReview)
  | _, [] => .ok []
  | i, b :: rest =>
    match processReviewBlock i b with
    | .error e => .error e
    | .ok none => parseReviewsAux (i + 1) rest
    | .ok (some rv) =>
      match parseReviewsAux (i + 1) rest with
      | .error e => .error e
      | .ok rs => .ok (rv :: rs)

/-- `for i, review in enumerate(reversed(soup.find_all(class_="reviewcontent")))`. -/
def parseReviews (blocks : List String) : Except PyErr (List PReview) :=
  parseReviewsAux 0 blocks.reverse

/-- Final `PGame(id=game_id, **data)`: pydantic raises ValidationError
    when any required field is still unset. -/
def buildPGame (gid : Int) (title : String) (revs : List PReview) (st : PState) :
    Except PyErr PGame :=
  match st.game_engine, st.content_rating, st.language, st.release_date,
        st.last_update, st.version, st.development_stage with
  | some ge, some cr, some lang, some rd, some lu, some v, some ds =>
    .ok
      { id := gid, title := title, authors := st.authors, game_engine := ge,
        content_rating := cr, language := lang, release_date := rd,
        last_update := lu, version := v, development_stage := ds,
        likes := st.likes, reviews := revs, contest := st.contest,
        orig_pc_gender := st.orig_pc_gender, themes := st.themes,
        thread := st.thread, play_online := st.play_online,
        versions := st.versionsMap, synopsis := st.synopsis, plot := st.plot,
        characters := st.characters, walkthrough := st.walkthrough,
        changelog := st.changelog }
  | _, _, _, _, _, _, _ => .error .validationError

/-- Everything of `parse_game_page` after author attribution; takes no
    store — only the author section reads ambient database state. -/
def parseRest (gid : Int) (auths : List (String × Int)) (page : DetailPage)
    (reviewBlocks : List String) : Except PyErr (Option PGame) :=
  match procInfoBoxes { authors := auths } page.infoBoxes with
  | .error e => .error e
  | .ok st1 =>
    match procDownloads st1 none page.downloads with
    | .error e => .error e
    | .ok st2 =>
      match procTabs st2 page.tabs with
      | .error e => .error e
      | .ok st3 =>
        let st4 := match page.playOnline with
          | some a => { st3 with play_online := some a }
          | none => st3
        match parseReviews reviewBlocks with
        | .error e => .error e
        | .ok revs =>
          match buildPGame gid (pyStrip page.title) revs st4 with
          | .error e => .error e
          | .ok g => .ok (some g)

/-- `parse_game_page(game_id, html_game, html_reviews)`.  The store
    argument is the ambient database the source queries for the
    unlinked-author fallback; `.ok none` is the author-skip `return`. -/
def parse_game_page (store : Store) (gid : Int) (page : DetailPage)
    (reviewBlocks : List String) : Except PyErr (Option PGame) :=
  match parseAuthors store page with
  | none => .ok none
  | some auths => parseRest gid auths page reviewBlocks

-- ===================== Relational loader (pgame_to_db_game) =====================

/-- The loader's author pre-pass: `GameAuthor.get(name=k, id=v)` and a
    create when absent. -/
def upsertAuthors : Store → List (String × Int) → Store
  | st, [] => st
  | st, (k, v) :: rest =>
    let present := st.authors.any (fun p => p.1 == v && p.2 == k)
    let st1 := if present then st else { st with authors := st.authors ++ [(v, k)] }
    upsertAuthors st1 rest

/-- The Game(...) keyword arguments, exactly as `pgame_to_db_game` spells
    them: every optional text field is guarded by `or ""` except
    `orig_pc_gender`, which is passed through unchanged. -/
def mkGameRow (g : PGame) (eng rat : Int) : GameRow :=
  { id := g.id
    title := g.title
    authorIds := g.authors.map (fun p => p.2)
    version := if g.version = "" then "1.0.0" else g.version
    engine := eng
    content_rating := rat
    language := g.language
    release_date := g.release_date
    last_update := g.last_update
    development_stage := g.development_stage
    likes := g.likes
    contest := g.contest.getD ""
    orig_pc_gender := g.orig_pc_gender
    adult_themes := match g.themes with
      | some t => t.adult.map (fun p => p.2)
      | none => []
    tf_themes := match g.themes with
      | some t => t.transformation.map (fun p => p.2)
      | none => []
    mm_themes := match g.themes with
      | some t => t.multimedia.map (fun p => p.2)
      | none => []
    thread := g.thread.getD ""
    play_online := g.play_online.getD ""
    synopsis_text := match g.synopsis with | some p => p.1 | none => ""
    synopsis_html := match g.synopsis with | some p => p.2 | none => ""
    plot_text := match g.plot with | some p => p.1 | none => ""
    plot_html := match g.plot with | some p => p.2 | none => ""
    characters_text := match g.characters with | some p => p.1 | none => ""
    characters_html := match g.characters with | some p => p.2 | none => ""
    walkthrough_text := match g.walkthrough with | some p => p.1 | none => ""
    walkthrough_html := match g.walkthrough with | some p => p.2 | none => ""
    changelog_text := match g.changelog with | some p => p.1 | none => ""
    changelog_html := match g.changelog with | some p => p.2 | none => "" }

/-- GameDownload(...) arguments: `note` and `delete` are guarded by `or ""`. -/
def mkDownloadRow (did : Int) (gvId : Int) (d : PDownload) : DownloadRow :=
  { id := did, link := d.link, report := d.report,
    note := d.note.getD "", delete := d.delete.getD "", game_version := gvId }

/-- The per-version loop: a GameVersion row, then its GameDownload rows. -/
def loadVersions : Store → Int → List (String × List PDownload) → Store
  | st, _, [] => st
  | st, gid, (v, ds) :: rest =>
    let vid : Int := Int.ofNat st.versions.length + 1
    let vrow : VersionRow := { id := vid, version := v, game := gid }
    let st1 := { st with versions := st.versions ++ [vrow] }
    let newRows := (List.range ds.length).zip ds |>.map
      (fun p => mkDownloadRow (Int.ofNat (st1.downloads.length + p.1) + 1) vid p.2)
    let st2 := { st1 with downloads := st1.downloads ++ newRows }
    loadVersions st2 gid rest

def loadReviews : Store → Int → List PReview → Store
  | st, _, [] => st
  | st, gid, r :: rest =>
    loadReviews
      { st with reviews := st.reviews ++
          [⟨Int.ofNat st.reviews.length + 1, r.author, r.text, r.date, r.version, gid⟩] }
      gid rest

/-- Do all taxonomy references of the record resolve (pony raises when a
    `.get` in the theme list comprehensions yields None)? -/
def themesOk (st : Store) (g : PGame) : Bool :=
  match g.themes with
  | none => true
  | some t =>
    t.adult.all (fun p => st.adultThemes.any (fun q => q.1 == p.2)) &&
    t.transformation.all (fun p => st.tfThemes.any (fun q => q.1 == p.2)) &&
    t.multimedia.all (fun p => st.mmThemes.any (fun q => q.1 == p.2))

/-- pony validation of the Game(...) keyword arguments beyond the
    reference lookups: a Required(str) attribute rejects the empty
    string, and a non-nullable Optional(str) rejects an explicit None —
    so the unguarded `orig_pc_gender=game.orig_pc_gender` raises
    ValueError whenever the record lacks the field (the repo guards
    every other optional with `or ""`, and had to mark the
    GameDownload note/delete attributes nullable=True for this reason).
    The loader-substituted `version` default is never empty. -/
def gameArgsOk (g : PGame) : Bool :=
  !(g.title == "") && !(g.language == "") && !(g.development_stage == "") &&
  g.orig_pc_gender.isSome

/-- pony validation of the per-version writes: GameVersion.version and
    GameDownload.link/report are Required(str), rejecting "". -/
def versionGraphOk (vs : List (String × List PDownload)) : Bool :=
  vs.all (fun p => !(p.1 == "") && p.2.all (fun d => !(d.link == "") && !(d.report == "")))

/-- pony validation of the Review writes: author, text and version are
    Required(str), rejecting "". -/
def reviewsOk (rs : List PReview) : Bool :=
  rs.all (fun r => !(r.author == "") && !(r.text == "") && !(r.version == ""))

/-- `pgame_to_db_game(cur, game)`: author pre-pass, then the Game row
    (engine/rating resolved by name — a failed resolution passes None to
    a Required attribute and pony raises), then versions with their
    downloads, then reviews.  Every pony validation failure along the way
    (None for a Required or non-nullable attribute, "" for a Required
    string) raises ValueError; since the surrounding session rolls back
    on any exception, the checks are gathered up front and no store is
    returned on error. -/
def pgame_to_db_game (st : Store) (g : PGame) : Except PyErr Store :=
  let st1 := upsertAuthors st g.authors
  match lookupByName st1.engines g.game_engine, lookupByName st1.ratings g.content_rating with
  | some eng, some rat =>
    if themesOk st1 g && gameArgsOk g && versionGraphOk g.versions && reviewsOk g.reviews then
      let st2 := { st1 with games := st1.games ++ [mkGameRow g eng rat] }
      let st3 := loadVersions st2 g.id g.versions
      let st4 := loadReviews st3 g.id g.reviews
      .ok st4
    else .error .valueError
  | _, _ => .error .valueError

-- ===================== Orchestration (crawl / main) =====================

/-- The ambient world a run sees: each taxonomy listing page (already
    reduced to the (id, normalised-name) pairs parse_category extracts,
    `none` = the requests call raises), the discovery listing, and the
    two fetches per game id (`none` = network error in fetch_page_raw,
    whose body has no error handling and whose exception is re-raised by
    future.result() during collection). -/
structure CrawlEnv where
  engPage : Option (List (Int × String))
  ratPage : Option (List (Int × String))
  adultPage : Option (List (Int × String))
  tfPage : Option (List (Int × String))
  mmPage : Option (List (Int × String))
  authPage : Option (List (Int × String))
  listing : Option (List Int)
  fetchGame : Int → Option DetailPage
  fetchReviews : Int → Option (List String)

/-- The sequential taxonomy loop: each of the six browse pages is fetched
    and its rows inserted; a fetch failure raises immediately. -/
def taxStage (env : CrawlEnv) (s : Store) : Except PyErr Store :=
  match env.engPage with
  | none => .error .netError
  | some l1 =>
    match env.ratPage with
    | none => .error .netError
    | some l2 =>
      match env.adultPage with
      | none => .error .netError
      | some l3 =>
        match env.tfPage with
        | none => .error .netError
        | some l4 =>
          match env.mmPage with
          | none => .error .netError
          | some l5 =>
            match env.authPage with
            | none => .error .netError
            | some l6 =>
              .ok { s with engines := s.engines ++ l1, ratings := s.ratings ++ l2,
                           adultThemes := s.adultThemes ++ l3, tfThemes := s.tfThemes ++ l4,
                           mmThemes := s.mmThemes ++ l5, authors := s.authors ++ l6 }

/-- Collecting the thread pool results: `future.result()` re-raises the
    stored exception of a failed fetch, so one failed task aborts the
    collection loop (and with it the whole crawl). -/
def collectFetches (env : CrawlEnv) : List Int → Except PyErr (List (Int × DetailPage × List String))
  | [] => .ok []
  | id :: rest =>
    match env.fetchGame id, env.fetchReviews id with
    | some g, some r =>
      match collectFetches env rest with
      | .error e => .error e
      | .ok l => .ok ((id, g, r) :: l)
    | _, _ => .error .netError

/-- The `Parsing info` loop: `parse_game_page` is called with no
    try/except around it, so a per-game parse exception aborts the loop;
    a `None` return (author skip) just contributes nothing. -/
def parseStage (store : Store) : List (Int × DetailPage × List String) → Except PyErr (List PGame)
  | [] => .ok []
  | (gid, pg, rv) :: rest =>
    match parse_game_page store gid pg rv with
    | .error e => .error e
    | .ok res =>
      match parseStage store rest with
      | .error e => .error e
      | .ok others => .ok (match res with | some g => g :: others | none => others)

/-- The `Writing to database` loop. -/
def loadStage : Store → List PGame → Except PyErr Store
  | st, [] => .ok st
  | st, g :: rest =>
    match pgame_to_db_game st g with
    | .error e => .error e
    | .ok st1 => loadStage st1 rest

/-- The body of `crawl()`, threading the store and the console.log lines
    emitted before each stage. -/
def crawlBody (env : CrawlEnv) (s : Store) : Except PyErr Store × List String :=
  let log1 := ["Fetching Categories"]
  match taxStage env s with
  | .error e => (.error e, log1)
  | .ok s1 =>
    match env.listing with
    | none => (.error .netError, log1)
    | some ids =>
      let log2 := log1 ++ ["Fetching game info"]
      match collectFetches env ids with
      | .error e => (.error e, log2)
      | .ok fetched =>
        let log3 := log2 ++ ["Parsing info"]
        match parseStage s1 fetched with
        | .error e => (.error e, log3)
        | .ok games =>
          let log4 := log3 ++ ["Writing to database"]
          match loadStage s1 games with
          | .error e => (.error e, log4)
          | .ok s2 => (.ok s2, log4 ++ ["Done"])

/-- Result of a run: outcome, the store the database is left holding, and
    the console log. -/
structure RunOut where
  result : Except PyErr Unit
  store : Store
  log : List String
deriving DecidableEq, Repr

/-- `@db_session def crawl()`: on an exception the session rolls back, so
    the store reverts to its state at entry. -/
def crawl (env : CrawlEnv) (s : Store) : RunOut :=
  match crawlBody env s with
  | (.ok s2, log) => ⟨.ok (), s2, log⟩
  | (.error e, log) => ⟨.error e, s, log⟩

/-- `main()`: the purge (drop_all_tables + create_tables) runs first,
    unconditionally and outside any transaction, then the crawl. -/
def mainRun (env : CrawlEnv) (s0 : Store) : RunOut :=
  let log0 := ["Purging Database", "Starting Crawl"]
  let out := crawl env Store.empty
  ⟨out.result, out.store, log0 ++ out.log⟩

-- ===================== Concrete fixtures =====================

/-- Taxonomy tables as loaded by a run whose browse pages carry one
    engine, one rating and one author. -/
def storeTax : Store :=
  { engines := [(3, "rags")], ratings := [(1, "adult")], authors := [(17, "jane")] }

/-- A fully well-formed detail page with a linked author. -/
def pageOK : DetailPage :=
  { title := "Cool Game"
    authorLinks := [("Jane", "index.php?module=viewprofile&u=17")]
    authorText := "by Jane"
    infoBoxes :=
      [ ("Engine", ⟨"RAGS", []⟩), ("Rating", ⟨"Adult", []⟩),
        ("Language", ⟨"English", []⟩), ("Release Date", ⟨"05/01/2021", []⟩),
        ("Last Update", ⟨"06/02/2021", []⟩), ("Version", ⟨"1.0", []⟩),
        ("Development", ⟨"Complete", []⟩), ("Orig PC Gender", ⟨"Male", []⟩),
        ("Likes", ⟨"42", []⟩) ]
    downloads := []
    tabs := []
    playOnline := none }

/-- pageOK with a Release Date text matching neither date format. -/
def pageBadDate : DetailPage :=
  { pageOK with infoBoxes :=
      [ ("Engine", ⟨"RAGS", []⟩), ("Rating", ⟨"Adult", []⟩),
        ("Language", ⟨"English", []⟩), ("Release Date", ⟨"sometime soon", []⟩),
        ("Last Update", ⟨"06/02/2021", []⟩), ("Version", ⟨"1.0", []⟩),
        ("Development", ⟨"Complete", []⟩), ("Orig PC Gender", ⟨"Male", []⟩),
        ("Likes", ⟨"42", []⟩) ] }

/-- pageOK with a non-numeric Likes text. -/
def pageBadLikes : DetailPage :=
  { pageOK with infoBoxes :=
      [ ("Engine", ⟨"RAGS", []⟩), ("Rating", ⟨"Adult", []⟩),
        ("Language", ⟨"English", []⟩), ("Release Date", ⟨"05/01/2021", []⟩),
        ("Last Update", ⟨"06/02/2021", []⟩), ("Version", ⟨"1.0", []⟩),
        ("Development", ⟨"Complete", []⟩), ("Orig PC Gender", ⟨"Male", []⟩),
        ("Likes", ⟨"many", []⟩) ] }

/-- pageOK with an unlinked (bare) author name. -/
def pageBare : DetailPage :=
  { pageOK with authorLinks := [], authorText := "by Ghost" }

/-- pageOK with one download div not preceded by any version header. -/
def pageDlNoHeader : DetailPage :=
  { pageOK with downloads := [.div none "https://dl.example/f.zip" none "reportlink"] }

/-- A run environment whose origin serves one loadable game (id 2). -/
def envOK : CrawlEnv :=
  { engPage := some [(3, "rags")], ratPage := some [(1, "adult")],
    adultPage := some [], tfPage := some [], mmPage := some [],
    authPage := some [(17, "jane")],
    listing := some [2],
    fetchGame := fun id => if id = 2 then some pageOK else none,
    fetchReviews := fun id => if id = 2 then some [] else none }

/-- envOK, but the first taxonomy fetch raises. -/
def envTaxFail : CrawlEnv := { envOK with engPage := none }

/-- envOK plus game 1 whose detail fetch fails with a network error. -/
def envFetchFail : CrawlEnv :=
  { envOK with listing := some [1, 2] }

/-- envOK plus game 1 whose detail page has a non-numeric Likes field. -/
def envBadLikes : CrawlEnv :=
  { envOK with
    listing := some [1, 2],
    fetchGame := fun id => if id = 2 then some pageOK else if id = 1 then some pageBadLikes else none,
    fetchReviews := fun id => if id = 1 || id = 2 then some [] else none }

/-- envOK, but the only discovered game (id 7) has an unlinked author
    name absent from the author taxonomy. -/
def envBareSkip : CrawlEnv :=
  { envOK with
    listing := some [7],
    fetchGame := fun id => if id = 7 then some pageBare else none,
    fetchReviews := fun id => if id = 7 then some [] else none }

/-- envBareSkip with an empty discovery listing. -/
def envNoGames : CrawlEnv := { envBareSkip with listing := some [] }

/-- A pre-run store holding a previous generation's author row. -/
def storePreRun : Store := { authors := [(1, "old_author")] }

-- ===================== Helper lemmas =====================

theorem upsertAuthors_games (l : List (String × Int)) : ∀ st : Store,
    (upsertAuthors st l).games = st.games := by
  induction l with
  | nil => intro st; rfl
  | cons p rest ih =>
    intro st
    obtain ⟨k, v⟩ := p
    simp only [upsertAuthors]
    rw [ih]
    split <;> rfl

theorem upsertAuthors_downloads (l : List (String × Int)) : ∀ st : Store,
    (upsertAuthors st l).downloads = st.downloads := by
  induction l with
  | nil => intro st; rfl
  | cons p rest ih =>
    intro st
    obtain ⟨k, v⟩ := p
    simp only [upsertAuthors]
    rw [ih]
    split <;> rfl

theorem loadVersions_games (vs : List (String × List PDownload)) : ∀ (st : Store) (gid : Int),
    (loadVersions st gid vs).games = st.games := by
  induction vs with
  | nil => intro st gid; rfl
  | cons p rest ih =>
    intro st gid
    obtain ⟨v, ds⟩ := p
    simp only [loadVersions]
    rw [ih]

theorem loadReviews_games (rs : List PReview) : ∀ (st : Store) (gid : Int),
    (loadReviews st gid rs).games = st.games := by
  induction rs with
  | nil => intro st gid; rfl
  | cons r rest ih =>
    intro st gid
    simp only [loadReviews]
    rw [ih]

theorem loadReviews_downloads (rs : List PReview) : ∀ (st : Store) (gid : Int),
    (loadReviews st gid rs).downloads = st.downloads := by
  induction rs with
  | nil => intro st gid; rfl
  | cons r rest ih =>
    intro st gid
    simp only [loadReviews]
    rw [ih]

-- ===================== C10 =====================

/-- C10: for every intermediate game record whose top-level version label
    is missing or empty, the Loader writes the Game row with the default
    version label "1.0.0".  (In the source the record's `version` field is
    a required str, so only the empty label can occur; `game.version or
    "1.0.0"` then substitutes the default.) -/
theorem c10_empty_version_default (st : Store) (g : PGame) (st1 : Store)
    (hv : g.version = "") (h : pgame_to_db_game st g = .ok st1) :
    (st1.games.getLast?).map (fun r => r.version) = some "1.0.0" := by
  simp only [pgame_to_db_game] at h
  split at h
  · split at h
    · injection h with h1
      subst h1
      rw [loadReviews_games, loadVersions_games]
      simp [List.getLast?_concat, mkGameRow, hv]
    · cases h
  · cases h

/-- A loadable record with an empty top-level version label. -/
def c10Game : PGame :=
  { id := 9, title := "Versionless", authors := [("jane", 17)],
    game_engine := "rags", content_rating := "adult", language := "English",
    release_date := ⟨2021, 5, 1, 0, 0, 0⟩, last_update := ⟨2021, 6, 2, 0, 0, 0⟩,
    version := "", development_stage := "Complete", likes := 3, reviews := [],
    contest := none, orig_pc_gender := some "Male", themes := none, thread := none,
    play_online := none, versions := [], synopsis := none, plot := none,
    characters := none, walkthrough := none, changelog := none }

def c10StoreOut : Store := ((pgame_to_db_game storeTax c10Game).toOption).getD Store.empty

theorem c10_empty_version_default_witness :
    (c10StoreOut.games.getLast?).map (fun r => r.version) = some "1.0.0" :=
  c10_empty_version_default storeTax c10Game c10StoreOut rfl (by decide)

-- ===================== C8 =====================

theorem parseReviewsAux_mem : ∀ (bs : List String) (i : Nat) (revs : List PReview) (r : PReview),
    parseReviewsAux i bs = .ok revs → r ∈ revs →
    ∃ b ∈ bs, ∃ j, processReviewBlock j b = .ok (some r) := by
  intro bs
  induction bs with
  | nil =>
    intro i revs r h hr
    simp only [parseReviewsAux] at h
    injection h with h1
    subst h1
    cases hr
  | cons b rest ih =>
    intro i revs r h hr
    simp only [parseReviewsAux] at h
    cases hb : processReviewBlock i b with
    | error e => rw [hb] at h; cases h
    | ok o =>
      rw [hb] at h
      cases o with
      | none =>
        obtain ⟨b1, hb1, j, hj⟩ := ih (i + 1) revs r h hr
        exact ⟨b1, List.mem_cons_of_mem _ hb1, j, hj⟩
      | some rv =>
        cases haux : parseReviewsAux (i + 1) rest with
        | error e => rw [haux] at h; cases h
        | ok rs =>
          rw [haux] at h
          injection h with h1
          subst h1
          rcases List.mem_cons.mp hr with heq | hmem
          · subst heq
            exact ⟨b, List.mem_cons_self _ _, i, hb⟩
          · obtain ⟨b1, hb1, j, hj⟩ := ih (i + 1) rs r haux hmem
            exact ⟨b1, List.mem_cons_of_mem _ hb1, j, hj⟩

/-- C8: for all review-page inputs, a review block whose first non-empty
    line does not contain the marker "Review by", or whose second line
    does not match the `Version reviewed: <version> on <date>` pattern,
    is never included in the Parser's review output; such blocks are
    skipped (the loop continues) without aborting the parse of the page.
    Conjunct three shows that every review in the output stems from a
    block on which processing returned it, hence never from a skipped
    block. -/
theorem c8_malformed_review_blocks_skipped :
    (∀ (i : Nat) (b : String) (l0 : String) (rest : List String),
        reviewLines b = l0 :: rest → strContains l0 "Review by" = false →
        processReviewBlock i b = .ok none)
    ∧ (∀ (i : Nat) (b : String) (l0 l1 : String) (rest : List String),
        reviewLines b = l0 :: l1 :: rest → matchVersionReviewed l1 = none →
        processReviewBlock i b = .ok none)
    ∧ (∀ (blocks : List String) (revs : List PReview) (r : PReview),
        parseReviews blocks = .ok revs → r ∈ revs →
        ∃ b ∈ blocks, ∃ j, processReviewBlock j b = .ok (some r)) := by
  refine ⟨?_, ?_, ?_⟩
  · intro i b l0 rest h hm
    unfold processReviewBlock
    rw [h]
    simp [hm]
  · intro i b l0 l1 rest h hm
    unfold processReviewBlock
    rw [h]
    cases hc : strContains l0 "Review by" with
    | false => simp [hc]
    | true => simp [hc, hm]
  · intro blocks revs r h hr
    obtain ⟨b, hb, j, hj⟩ := parseReviewsAux_mem blocks.reverse 0 revs r h hr
    exact ⟨b, List.mem_reverse.mp hb, j, hj⟩

theorem c8_malformed_review_blocks_skipped_witness :
    processReviewBlock 0 "hello there\ngeneral" = Except.ok none ∧
    processReviewBlock 1 "Review by Bob\nno version line here\nbody text" = Except.ok none :=
  ⟨c8_malformed_review_blocks_skipped.1 0 "hello there\ngeneral" "hello there" ["general"]
      (by decide) (by decide),
    c8_malformed_review_blocks_skipped.2.1 1 "Review by Bob\nno version line here\nbody text"
      "Review by Bob" "no version line here" ["body text"] (by decide) (by decide)⟩

-- ===================== C9 =====================

/-- Stores differing only in the ambient author taxonomy row id. -/
def storeGhost5 : Store := { authors := [(5, "ghost")] }

def storeGhost9 : Store := { authors := [(9, "ghost")] }

/-- C9 counterexample: on a detail page with a bare (unlinked) author
    name, byte-identical HTML inputs yield different intermediate records
    under two different ambient author tables — the Parser reads the
    database (GameAuthor.get) during parsing, so it is not a pure
    function of its HTML inputs. -/
theorem c9_parser_ambient_state_cex :
    parse_game_page storeGhost5 7 pageBare [] ≠ parse_game_page storeGhost9 7 pageBare [] := by
  decide

/-- C9 (amended): the Parser is deterministic in the HTML inputs and the
    ambient author table; for a page whose author container has at least
    one anchor it never consults the store, so its output depends only on
    the HTML inputs — the ambient-state dependence is confined to the
    bare-author fallback. -/
theorem c9_parser_pure_given_author_links (s1 s2 : Store) (gid : Int) (pg : DetailPage)
    (rv : List String) (h : pg.authorLinks ≠ []) :
    parse_game_page s1 gid pg rv = parse_game_page s2 gid pg rv := by
  unfold parse_game_page parseAuthors
  cases hl : pg.authorLinks with
  | nil => exact absurd hl h
  | cons a as => rfl

theorem c9_parser_pure_given_author_links_witness :
    parse_game_page storeGhost5 2 pageOK [] = parse_game_page storeGhost9 2 pageOK [] :=
  c9_parser_pure_given_author_links storeGhost5 storeGhost9 2 pageOK [] (by decide)

-- ===================== C2 =====================

/-- C2: the claim says a detail page whose "Release Date" text matches
    neither date format still yields an intermediate record with the date
    unset.  In the source the two format attempts are each swallowed, but
    `PGame.release_date` is a required pydantic field, so constructing
    the record raises a ValidationError instead: evaluated on a page
    identical to a loadable one except for the Release Date text, the
    parser raises and no record is produced. -/
theorem c2_unparseable_date_raises :
    parseBarFmt "sometime soon" = none ∧
    parseUSDate "sometime soon" = none ∧
    parse_game_page storeTax 3 pageBadDate [] = Except.error PyErr.validationError ∧
    parse_game_page storeTax 2 pageOK [] ≠ Except.error PyErr.validationError := by
  decide

-- ===================== C7 =====================

/-- C7 counterexample: a download entry not preceded by any version
    header is not attributed to the game's top-level version label (here
    "1.0"); the source reads the still-unbound loop variable `version`
    and raises NameError, aborting the parse. -/
theorem c7_download_without_header_cex :
    parse_game_page storeTax 4 pageDlNoHeader [] = Except.error PyErr.nameError := by
  decide

/-- C7 (amended): a download entry is grouped under the most recently
    seen version header (the header rebinds the tracking variable, and a
    div is appended under the bound header when its text is non-empty);
    a div under an *empty* header text falls back to the game's top-level
    version label; a div with *no* preceding header raises NameError. -/
theorem c7_download_version_grouping :
    (∀ (st : PState) (vh : Option String) (t : String) (rest : List DlContainer),
        procDownloads st vh (.center t :: rest) =
          procDownloads st (some (pyStrip (lstripSet t "Version:"))) rest)
    ∧ (∀ (st : PState) (v : String) (dl : Option String) (lk : String) (nt : Option String)
         (rp : String) (rest : List DlContainer), v ≠ "" →
        procDownloads st (some v) (.div dl lk nt rp :: rest) =
          procDownloads
            { st with versionsMap := appendUnder st.versionsMap v ⟨dl, lk, nt, modelUrljoin rp⟩ }
            (some v) rest)
    ∧ (∀ (st : PState) (tv : String) (dl : Option String) (lk : String) (nt : Option String)
         (rp : String) (rest : List DlContainer), st.version = some tv →
        procDownloads st (some "") (.div dl lk nt rp :: rest) =
          procDownloads
            { st with versionsMap := appendUnder st.versionsMap tv ⟨dl, lk, nt, modelUrljoin rp⟩ }
            (some "") rest)
    ∧ (∀ (st : PState) (dl : Option String) (lk : String) (nt : Option String)
         (rp : String) (rest : List DlContainer),
        procDownloads st none (.div dl lk nt rp :: rest) = .error PyErr.nameError) := by
  refine ⟨?_, ?_, ?_, ?_⟩
  · intro st vh t rest
    rfl
  · intro st v dl lk nt rp rest hv
    simp only [procDownloads]
    rw [if_neg hv]
  · intro st tv dl lk nt rp rest hver
    simp [procDownloads, hver]
  · intro st dl lk nt rp rest
    rfl

theorem c7_download_version_grouping_witness :
    procDownloads {} (some "1.0") [.div none "https://x/f.zip" none "r"] =
      Except.ok { versionsMap := [("1.0", [⟨none, "https://x/f.zip", none, modelUrljoin "r"⟩])] } :=
  (c7_download_version_grouping.2.1 {} "1.0" none "https://x/f.zip" none "r" []
      (by decide)).trans (by decide)

-- ===================== C1 =====================

/-- C1 counterexample: with a taxonomy fetch failure (a run-level error)
    and a non-empty pre-run store, the run aborts but the store is left
    empty — the purge already ran, unconditionally and outside any
    transaction — not in its pre-run state. -/
theorem c1_purge_not_deferred_cex :
    (mainRun envTaxFail storePreRun).result = Except.error PyErr.netError ∧
    (mainRun envTaxFail storePreRun).store ≠ storePreRun ∧
    (mainRun envTaxFail storePreRun).store = Store.empty := by
  decide

/-- C1 (amended): a run-level error aborts the run, and the crawl
    transaction rolls its writes back — but `main` purges the store
    before `crawl` starts, so an aborted run leaves the store in the
    post-purge (empty) state rather than its pre-run state; no mixing of
    two generations occurs, yet the previous generation is lost. -/
theorem c1_abort_leaves_purged_store (env : CrawlEnv) (s0 : Store) (e : PyErr)
    (h : (mainRun env s0).result = .error e) : (mainRun env s0).store = Store.empty := by
  cases hc : crawlBody env Store.empty with
  | mk res log =>
    cases res with
    | ok s2 =>
      simp only [mainRun, crawl, hc] at h
      cases h
    | error e2 =>
      simp only [mainRun, crawl, hc]

theorem c1_abort_leaves_purged_store_witness :
    (mainRun envTaxFail storePreRun).store = Store.empty :=
  c1_abort_leaves_purged_store envTaxFail storePreRun PyErr.netError (by decide)

-- ===================== C3 =====================

/-- C3 counterexample: a run whose only discovered game has an unknown
    bare author produces output (result, final store, console log)
    identical to a run that discovered no games at all — the exclusion is
    silent, reported nowhere, contradicting "reported as a skip with its
    reason". -/
theorem c3_skip_unreported_cex :
    mainRun envBareSkip storePreRun = mainRun envNoGames storePreRun ∧
    (mainRun envBareSkip storePreRun).store.games = [] ∧
    (mainRun envBareSkip storePreRun).result = Except.ok () := by
  decide

/-- C3 (amended): a detail page showing a bare author name that is
    absent from the author taxonomy is dropped: the Parser yields no
    record and sibling games are unaffected (removing the skipped game
    from the parse stage leaves the stage's output unchanged) — but the
    exclusion is silent, not reported (see the counterexample). -/
theorem c3_unknown_bare_author_skipped_silently :
    (∀ (store : Store) (gid : Int) (pg : DetailPage) (rv : List String),
        pg.authorLinks = [] →
        lookupAuthorId store.authors (normalizeBare pg.authorText) = none →
        parse_game_page store gid pg rv = .ok none)
    ∧ (∀ (store : Store) (pre post : List (Int × DetailPage × List String))
         (gid : Int) (pg : DetailPage) (rv : List String),
        parse_game_page store gid pg rv = .ok none →
        parseStage store (pre ++ (gid, pg, rv) :: post) = parseStage store (pre ++ post)) := by
  constructor
  · intro store gid pg rv h1 h2
    unfold parse_game_page parseAuthors
    rw [h1, h2]
  · intro store pre post gid pg rv hskip
    induction pre with
    | nil =>
      simp only [List.nil_append, parseStage]
      rw [hskip]
      cases hp : parseStage store post <;> rfl
    | cons p pre ih =>
      obtain ⟨gid2, pg2, rv2⟩ := p
      simp only [List.cons_append, parseStage, List.append_eq]
      rw [ih]

theorem c3_unknown_bare_author_skipped_silently_witness :
    parse_game_page storeTax 7 pageBare [] = Except.ok none :=
  c3_unknown_bare_author_skipped_silently.1 storeTax 7 pageBare [] (by decide) (by decide)

-- ===================== C4 =====================

theorem collectFetches_error_of_fail (env : CrawlEnv) :
    ∀ (ids : List Int) (id : Int), id ∈ ids →
    (env.fetchGame id = none ∨ env.fetchReviews id = none) →
    collectFetches env ids = .error .netError := by
  intro ids
  induction ids with
  | nil => intro id h; cases h
  | cons a rest ih =>
    intro id hmem hfail
    rcases List.mem_cons.mp hmem with heq | hmem2
    · subst heq
      rcases hfail with hf | hf
      · simp [collectFetches, hf]
      · cases hg : env.fetchGame id with
        | none => simp [collectFetches, hg]
        | some g => simp [collectFetches, hg, hf]
    · have h2 := ih id hmem2 hfail
      cases hg : env.fetchGame a with
      | none => simp [collectFetches, hg]
      | some g =>
        cases hr : env.fetchReviews a with
        | none => simp [collectFetches, hg, hr]
        | some r => simp [collectFetches, hg, hr, h2]

/-- C4 counterexample: one network-failed fetch (game 1's detail page)
    aborts collection of the whole batch and with it the run — the
    sibling game 2 is not ingested, though the same origin serving only
    game 2 loads it fine. -/
theorem c4_single_fetch_failure_aborts_cex :
    (mainRun envFetchFail Store.empty).result = Except.error PyErr.netError ∧
    (mainRun envFetchFail Store.empty).store.games = [] ∧
    (mainRun envOK Store.empty).result = Except.ok () ∧
    ((mainRun envOK Store.empty).store.games.map (fun r => r.id)) = [2] := by
  decide

/-- C4 (amended): the fetcher does not retry and does not detect non-2xx
    responses (a fetched body is used as-is); but a network error in any
    one task is re-raised when the task's result is collected, aborting
    the batch and the crawl — the transaction rolls back and no task in
    the batch is ingested. -/
theorem c4_fetch_error_aborts_batch (env : CrawlEnv) (s s1 : Store) (ids : List Int) (id : Int)
    (htax : taxStage env s = .ok s1) (hlist : env.listing = some ids) (hid : id ∈ ids)
    (hfail : env.fetchGame id = none ∨ env.fetchReviews id = none) :
    (crawl env s).result = Except.error PyErr.netError ∧ (crawl env s).store = s := by
  have hcf := collectFetches_error_of_fail env ids id hid hfail
  constructor <;> simp [crawl, crawlBody, htax, hlist, hcf]

def c4TaxStore : Store := ((taxStage envFetchFail Store.empty).toOption).getD Store.empty

theorem c4_fetch_error_aborts_batch_witness :
    (crawl envFetchFail Store.empty).result = Except.error PyErr.netError ∧
    (crawl envFetchFail Store.empty).store = Store.empty :=
  c4_fetch_error_aborts_batch envFetchFail Store.empty c4TaxStore [1, 2] 1 (by decide) (by decide)
    (by decide) (Or.inl (by decide))

-- ===================== C5 =====================

theorem procInfoBoxes_append (xs : List (String × InfoRight)) :
    ∀ (ys : List (String × InfoRight)) (st : PState),
    procInfoBoxes st (xs ++ ys) =
      (match procInfoBoxes st xs with
       | .error e => .error e
       | .ok st1 => procInfoBoxes st1 ys) := by
  induction xs with
  | nil => intro ys st; rfl
  | cons b rest ih =>
    intro ys st
    cases hb : procInfoBox st b with
    | error e => simp only [List.cons_append, procInfoBoxes, hb]
    | ok st1 =>
      simp only [List.cons_append, procInfoBoxes, hb]
      exact ih ys st1

theorem procInfoBox_likes (st : PState) (r : InfoRight) :
    procInfoBox st ("Likes", r) =
      (match pyInt r.text with
       | some n => .ok { st with likes := n }
       | none => .error .valueError) := rfl

/-- C5 (amended): a non-numeric Likes field is parsed by an unguarded
    int() — the parse of that game raises; but the exception is not
    caught per game: any parse error aborts the whole parse stage, and
    the crawl transaction then rolls back, so the remaining games are
    not processed either (the failure is fatal to the run, not only to
    the one game). -/
theorem c5_bad_likes_aborts_crawl :
    (∀ (store : Store) (gid : Int) (pg : DetailPage) (rv : List String)
       (auths : List (String × Int)) (boxes1 boxes2 : List (String × InfoRight))
       (r : InfoRight) (st1 : PState),
        parseAuthors store pg = some auths →
        pg.infoBoxes = boxes1 ++ ("Likes", r) :: boxes2 →
        procInfoBoxes { authors := auths } boxes1 = .ok st1 →
        pyInt r.text = none →
        parse_game_page store gid pg rv = .error PyErr.valueError)
    ∧ (∀ (store : Store) (items : List (Int × DetailPage × List String))
         (gid : Int) (pg : DetailPage) (rv : List String) (e : PyErr),
        (gid, pg, rv) ∈ items → parse_game_page store gid pg rv = .error e →
        ∃ e2, parseStage store items = .error e2)
    ∧ (∀ (env : CrawlEnv) (s : Store) (e : PyErr) (log : List String),
        crawlBody env s = (.error e, log) → crawl env s = ⟨.error e, s, log⟩) := by
  refine ⟨?_, ?_, ?_⟩
  · intro store gid pg rv auths boxes1 boxes2 r st1 ha hb hfold hlikes
    unfold parse_game_page
    rw [ha]
    show parseRest gid auths pg rv = Except.error PyErr.valueError
    unfold parseRest
    rw [hb, procInfoBoxes_append boxes1 (("Likes", r) :: boxes2) { authors := auths }, hfold]
    simp only [procInfoBoxes, procInfoBox_likes, hlikes]
  · intro store items gid pg rv e hmem hperr
    induction items with
    | nil => cases hmem
    | cons p rest ih =>
      rcases List.mem_cons.mp hmem with heq | hm2
      · subst heq
        exact ⟨e, by simp [parseStage, hperr]⟩
      · obtain ⟨e2, he2⟩ := ih hm2
        obtain ⟨g2, pg2, rv2⟩ := p
        cases hp : parse_game_page store g2 pg2 rv2 with
        | error e3 => exact ⟨e3, by simp [parseStage, hp]⟩
        | ok res => exact ⟨e2, by simp [parseStage, hp, he2]⟩
  · intro env s e log h
    unfold crawl
    rw [h]

def c5Boxes1 : List (String × InfoRight) :=
  [ ("Engine", ⟨"RAGS", []⟩), ("Rating", ⟨"Adult", []⟩), ("Language", ⟨"English", []⟩),
    ("Release Date", ⟨"05/01/2021", []⟩), ("Last Update", ⟨"06/02/2021", []⟩),
    ("Version", ⟨"1.0", []⟩), ("Development", ⟨"Complete", []⟩),
    ("Orig PC Gender", ⟨"Male", []⟩) ]

def c5State1 : PState := ((procInfoBoxes { authors := [("jane", 17)] } c5Boxes1).toOption).getD {}

theorem c5_bad_likes_aborts_crawl_witness :
    parse_game_page storeTax 1 pageBadLikes [] = Except.error PyErr.valueError :=
  c5_bad_likes_aborts_crawl.1 storeTax 1 pageBadLikes [] [("jane", 17)] c5Boxes1 []
    ⟨"many", []⟩ c5State1 (by decide) (by decide) (by decide) (by decide)

/-- C5 counterexample: a run with game 1 (non-numeric Likes "many") and
    game 2 (well-formed) aborts with a ValueError and loads nothing; the
    same origin serving game 2 alone loads it — so the parse failure of
    one game did stop processing of its sibling. -/
theorem c5_bad_likes_stops_run_cex :
    (mainRun envBadLikes Store.empty).result = Except.error PyErr.valueError ∧
    (mainRun envBadLikes Store.empty).store.games = [] ∧
    (mainRun envOK Store.empty).result = Except.ok () ∧
    ((mainRun envOK Store.empty).store.games.map (fun r => r.likes)) = [42] := by
  decide

-- ===================== C6 =====================

theorem loadVersions_downloads_mem (gid : Int) :
    ∀ (vs : List (String × List PDownload)) (st : Store),
    (∀ p ∈ vs, ∀ d ∈ p.2, d.note = none ∧ d.delete = none) →
    ∀ dr ∈ (loadVersions st gid vs).downloads,
      dr ∈ st.downloads ∨ (dr.note = "" ∧ dr.delete = "") := by
  intro vs
  induction vs with
  | nil => intro st hvs dr hdr; exact Or.inl hdr
  | cons p rest ih =>
    intro st hvs dr hdr
    obtain ⟨v, ds⟩ := p
    simp only [loadVersions] at hdr
    have hrest : ∀ q ∈ rest, ∀ d ∈ q.2, d.note = none ∧ d.delete = none :=
      fun q hq d hd => hvs q (List.mem_cons_of_mem _ hq) d hd
    rcases ih _ hrest dr hdr with hin | hok
    · rcases List.mem_append.mp hin with h1 | h2
      · exact Or.inl h1
      · right
        obtain ⟨q, hq, hdq⟩ := List.mem_map.mp h2
        have hds : q.2 ∈ ds := (List.of_mem_zip hq).2
        have hnd := hvs (v, ds) (List.mem_cons_self _ _) q.2 hds
        subst hdq
        simp [mkDownloadRow, hnd.1, hnd.2]
    · exact Or.inr hok

/-- C6 (amended): every optional text field the Loader writes is guarded
    by `or ""` and is stored as the empty string when missing — except
    `orig_pc_gender`, which is passed to the Game constructor unguarded:
    pony rejects the explicit None for the non-nullable Optional(str)
    attribute with a ValueError, so a record missing orig_pc_gender is
    not stored at all (the uncaught error aborts the write stage and the
    run) rather than being stored with an empty string; on a successful
    write the field is passed through unchanged. -/
theorem c6_missing_optionals_empty_except_gender :
    (∀ (st : Store) (g : PGame), g.orig_pc_gender = none →
        pgame_to_db_game st g = .error PyErr.valueError)
    ∧ (∀ (st : Store) (g : PGame) (st1 : Store),
        pgame_to_db_game st g = .ok st1 →
        g.contest = none → g.thread = none → g.play_online = none →
        g.synopsis = none → g.plot = none → g.characters = none →
        g.walkthrough = none → g.changelog = none →
        (∀ p ∈ g.versions, ∀ d ∈ p.2, d.note = none ∧ d.delete = none) →
        (∀ row ∈ st1.games, row ∈ st.games ∨
           (row.contest = "" ∧ row.thread = "" ∧ row.play_online = "" ∧
            row.synopsis_text = "" ∧ row.synopsis_html = "" ∧ row.plot_text = "" ∧
            row.plot_html = "" ∧ row.characters_text = "" ∧ row.characters_html = "" ∧
            row.walkthrough_text = "" ∧ row.walkthrough_html = "" ∧
            row.changelog_text = "" ∧ row.changelog_html = "" ∧
            row.orig_pc_gender = g.orig_pc_gender))
        ∧ (∀ dr ∈ st1.downloads, dr ∈ st.downloads ∨ (dr.note = "" ∧ dr.delete = ""))) := by
  constructor
  · intro st g horig
    have hargs : gameArgsOk g = false := by
      simp [gameArgsOk, horig]
    simp only [pgame_to_db_game]
    split
    · simp [hargs]
    · rfl
  · intro st g st1 h hcontest hthread hplay hsyn hplot hchar hwalk hchange hdl
    simp only [pgame_to_db_game] at h
    split at h
    · split at h
      · injection h with h1
        subst h1
        constructor
        · intro row hrow
          rw [loadReviews_games, loadVersions_games] at hrow
          rcases List.mem_append.mp hrow with hin | heq
          · have hin2 : row ∈ (upsertAuthors st g.authors).games := hin
            rw [upsertAuthors_games] at hin2
            exact Or.inl hin2
          · right
            have heq2 := List.eq_of_mem_singleton heq
            subst heq2
            simp [mkGameRow, hcontest, hthread, hplay, hsyn, hplot, hchar, hwalk, hchange]
        · intro dr hdr
          rw [loadReviews_downloads] at hdr
          rcases loadVersions_downloads_mem g.id g.versions _ hdl dr hdr with hin | hok
          · have hin2 : dr ∈ (upsertAuthors st g.authors).downloads := hin
            rw [upsertAuthors_downloads] at hin2
            exact Or.inl hin2
          · exact Or.inr hok
      · cases h
    · cases h

/-- A record with every optional field missing (orig_pc_gender
    included), and one download whose note and dead-link fields are
    missing. -/
def c6Game : PGame :=
  { id := 11, title := "Bare Optionals", authors := [("jane", 17)],
    game_engine := "rags", content_rating := "adult", language := "English",
    release_date := ⟨2021, 5, 1, 0, 0, 0⟩, last_update := ⟨2021, 6, 2, 0, 0, 0⟩,
    version := "1.0", development_stage := "Complete", likes := 5, reviews := [],
    contest := none, orig_pc_gender := none, themes := none, thread := none,
    play_online := none,
    versions := [("1.0", [⟨none, "https://dl.x/f.zip", none, "https://tfgames.site/r"⟩])],
    synopsis := none, plot := none, characters := none, walkthrough := none,
    changelog := none }

/-- c6Game with the one unguarded field present. -/
def c6GameWithGender : PGame := { c6Game with orig_pc_gender := some "Male" }

/-- C6 counterexample: a record whose orig_pc_gender is missing is not
    stored with the empty string — the load raises ValueError (pony
    rejects the unguarded None) and nothing is stored; the identical
    record with the field present loads, and its guarded missing fields
    (contest, thread, play_online, download note/delete) are stored as
    the empty string. -/
theorem c6_missing_gender_fatal_cex :
    c6Game.orig_pc_gender = none ∧
    pgame_to_db_game storeTax c6Game = Except.error PyErr.valueError ∧
    ((pgame_to_db_game storeTax c6GameWithGender).map
        (fun s => s.games.map (fun r => (r.contest, r.thread, r.play_online)))) =
      Except.ok [("", "", "")] ∧
    ((pgame_to_db_game storeTax c6GameWithGender).map
        (fun s => s.downloads.map (fun d => (d.note, d.delete)))) = Except.ok [("", "")] := by
  decide

def c6StoreOut : Store := ((pgame_to_db_game storeTax c6GameWithGender).toOption).getD Store.empty

theorem c6_missing_optionals_empty_except_gender_witness :
    pgame_to_db_game storeTax c6Game = Except.error PyErr.valueError ∧
    ((∀ row ∈ c6StoreOut.games, row ∈ storeTax.games ∨
       (row.contest = "" ∧ row.thread = "" ∧ row.play_online = "" ∧
        row.synopsis_text = "" ∧ row.synopsis_html = "" ∧ row.plot_text = "" ∧
        row.plot_html = "" ∧ row.characters_text = "" ∧ row.characters_html = "" ∧
        row.walkthrough_text = "" ∧ row.walkthrough_html = "" ∧
        row.changelog_text = "" ∧ row.changelog_html = "" ∧
        row.orig_pc_gender = c6GameWithGender.orig_pc_gender))
    ∧ (∀ dr ∈ c6StoreOut.downloads, dr ∈ storeTax.downloads ∨ (dr.note = "" ∧ dr.delete = ""))) :=
  ⟨c6_missing_optionals_empty_except_gender.1 storeTax c6Game rfl,
    c6_missing_optionals_empty_except_gender.2 storeTax c6GameWithGender c6StoreOut (by decide)
      rfl rfl rfl rfl rfl rfl rfl rfl (by decide)⟩
